import Mathlib

/-!
Verification of the capability-token security core of the proofi-agents
repository, as a shallow embedding in Lean 4.

The embedding follows the source files:
  * `src/lib/proofi-sdk.js` — browser SDK: scope matcher (`matchScope`),
    scoped access tokens (`createAccessToken` / `validateToken` /
    `revokeToken`), SHA-256 audit hash chain (`addAuditEntry` /
    `verifyChain`), the agent execution flow (`executeAgent`), and the
    AES-GCM payload envelope (`encryptData` / `decryptData`).
  * the health-analyzer keypair store (`loadKeypair` / `getOrCreateKeypair`)
    and crypto utilities (`unwrapDEK`, `isTokenExpired`, `hasScope`,
    `verifyTokenSignature`) from the unnamed TypeScript sources.

External primitives (WebCrypto AES-GCM, SHA-256, base64 `btoa`/`atob`,
`nacl.box.open`, `JSON.parse`) are modelled as explicit function parameters;
everything the repository itself computes is transcribed directly.
Machine time (`Date.now()`) is passed in explicitly as a `Nat`.
-/

namespace Proofi

/-! ## Scope matching

`matchScope` transcribes `src/lib/proofi-sdk.js` lines 315-322:

    function matchScope(pattern, required) {
      if (pattern === required) return true;
      if (pattern.endsWith('/*')) {
        const prefix = pattern.slice(0, -2);
        return required.startsWith(prefix);
      }
      return false;
    }
-/

/-- JavaScript `String.prototype.startsWith`, modelled on character lists. -/
def strStartsWith (s pre : String) : Bool :=
  pre.data.isPrefixOf s.data

/-- JavaScript `String.prototype.endsWith`, modelled on character lists. -/
def strEndsWith (s suf : String) : Bool :=
  suf.data.isSuffixOf s.data

/-- JavaScript `str.slice(0, -n)`: the string without its last `n`
characters. -/
def strDropRight (s : String) (n : Nat) : String :=
  String.mk (s.data.take (s.data.length - n))

def matchScope (pattern required : String) : Bool :=
  if pattern == required then true
  else if strEndsWith pattern "/*" then
    strStartsWith required (strDropRight pattern 2)
  else false

/-- Scope entry of a capability token (`{ path, permissions }`). -/
structure Scope where
  path : String
  permissions : List String
deriving DecidableEq, Repr

/-- JavaScript `String.prototype.includes`: substring containment, modelled
on the character lists. -/
def strIncludes (s sub : String) : Bool :=
  go s.data sub.data
where
  go : List Char → List Char → Bool
  | s, sub => if sub.isPrefixOf s then true
              else match s with
                   | [] => false
                   | _ :: t => go t sub

/-! ## Capability tokens (health-analyzer crypto utilities)

`CapabilityToken` transcribes the interface in the agent's crypto module;
`WrappedDEK` its `{ ciphertext, ephemeralPublicKey, nonce }` record. -/

structure WrappedDEK where
  ciphertext : String
  ephemeralPublicKey : String
  nonce : String
deriving DecidableEq, Repr

structure CapabilityToken where
  v : Nat
  id : String
  iss : String
  sub : String
  iat : Nat
  exp : Nat
  scopes : List Scope
  bucketId : String
  resources : List String
  cdnUrl : String
  wrappedDEK : WrappedDEK
  sig : String
  sigAlg : String
deriving DecidableEq, Repr

/-- Transcribes `isTokenExpired`: `const now = Math.floor(Date.now() / 1000);
return token.exp < now;` — the clock read is passed in as `now`. -/
def isTokenExpired (token : CapabilityToken) (now : Nat) : Bool :=
  token.exp < now

/-- Transcribes `hasScope`: `token.scopes.some(scope =>
scope.path.includes(requiredPath) && scope.permissions.includes(permission))`. -/
def hasScope (token : CapabilityToken) (requiredPath : String)
    (permission : String) : Bool :=
  token.scopes.any fun scope =>
    strIncludes scope.path requiredPath && scope.permissions.contains permission

/-! ## Browser SDK scoped access tokens (`src/lib/proofi-sdk.js`)

`createAccessToken` / `validateToken` / `revokeToken` operate on
`this.tokens`, a `Map` from token ids to token records.  The map is
modelled as an association list with `Map.get`/`Map.set` semantics
(`tokensGet` finds the first binding, `tokensSet` replaces it in place or
appends).  Timestamps (`createdAt`/`expiresAt`, stored as ISO date strings
and compared through `new Date(...)`) are modelled as milliseconds since
the epoch; the clock read `new Date()` is passed in as `now`. -/

structure AccessToken where
  tokenId : String
  agentId : String
  scopes : List String
  createdAt : Nat
  expiresAt : Nat
  agentKey : String
  revoked : Bool
deriving DecidableEq, Repr

abbrev TokenStore := List (String × AccessToken)

def tokensGet (tokens : TokenStore) (tokenId : String) : Option AccessToken :=
  (tokens.find? fun p => p.1 == tokenId).map Prod.snd

def tokensSet : TokenStore → String → AccessToken → TokenStore
  | [], tokenId, token => [(tokenId, token)]
  | (k, v) :: rest, tokenId, token =>
    if k == tokenId then (tokenId, token) :: rest
    else (k, v) :: tokensSet rest tokenId token

/-- Transcribes `createAccessToken(agentId, scopes, durationMs)`.  The two
random base64 strings (`tokenId`, `agentKey`) come from
`crypto.getRandomValues` and are passed in; `now` is `Date.now()`.
Returns the updated `this.tokens` and the created token. -/
def createAccessToken (tokens : TokenStore) (tokenId agentKey : String)
    (agentId : String) (scopes : List String) (durationMs now : Nat) :
    TokenStore × AccessToken :=
  let token : AccessToken :=
    { tokenId := tokenId
      agentId := agentId
      scopes := scopes
      createdAt := now
      expiresAt := now + durationMs
      agentKey := agentKey
      revoked := false }
  (tokensSet tokens tokenId token, token)

inductive ValidationResult where
  | invalid (reason : String)
  | valid (token : AccessToken)
deriving DecidableEq, Repr

/-- Transcribes `validateToken(tokenId, requiredScope)` (lines 139-148):
not-found, revoked, expired (`new Date(token.expiresAt) < new Date()`),
then the scope check (skipped when `requiredScope` is falsy). -/
def validateToken (tokens : TokenStore) (tokenId : String)
    (requiredScope : Option String) (now : Nat) : ValidationResult :=
  match tokensGet tokens tokenId with
  | none => .invalid "Token not found"
  | some token =>
    if token.revoked then .invalid "Token revoked"
    else if token.expiresAt < now then .invalid "Token expired"
    else
      match requiredScope with
      | some rs =>
        if token.scopes.any fun s => matchScope s rs then .valid token
        else .invalid ("Scope " ++ rs ++ " not granted")
      | none => .valid token

/-- Transcribes `revokeToken(tokenId)`: `const token = this.tokens.get(tokenId);
if (token) token.revoked = true;` — the in-place mutation becomes a map
update. -/
def revokeToken (tokens : TokenStore) (tokenId : String) : TokenStore :=
  match tokensGet tokens tokenId with
  | none => tokens
  | some token => tokensSet tokens tokenId { token with revoked := true }

end Proofi

namespace Proofi

/-! ## C1 — the scope matcher -/

/-- C1 counterexample: the claim states that for every scope set
`matches("health/*", "health")` is false (the wildcard prefix must be a
`/`-bounded ancestor, never a bare substring).  The source `matchScope`
strips the trailing `/*` and tests a plain string prefix, so
`matchScope "health/*" "health"` is `true` — and even the bare substring
prefix `"healthy"` matches. -/
theorem matchScope_wildcard_matches_bare_prefix_cex :
    matchScope "health/*" "health" = true ∧
    matchScope "health/*" "healthy" = true := by
  decide

/-- C1 amended: `matchScope pattern required` grants iff `pattern` equals
`required`, or `pattern` ends in `/*` and `required` starts with `pattern`
minus its final two characters, as a plain string prefix with no
`/`-boundary requirement.  Hence `matches("health/*", "health/steps")` is
true and `matches("health/steps", "health/sleep")` is false as claimed,
but `matches("health/*", "health")` is true.  `hasScope` grants a
`(path, permission)` iff some scope entry's path contains the requested
path as a substring and that entry's permission list contains the
permission. -/
theorem matchScope_hasScope_characterization :
    (∀ pattern required : String,
      matchScope pattern required = true ↔
        pattern = required ∨
          (strEndsWith pattern "/*" = true ∧
           strStartsWith required (strDropRight pattern 2) = true)) ∧
    matchScope "health/*" "health/steps" = true ∧
    matchScope "health/steps" "health/sleep" = false ∧
    matchScope "health/*" "health" = true ∧
    (∀ (token : CapabilityToken) (requiredPath permission : String),
      hasScope token requiredPath permission = true ↔
        ∃ scope ∈ token.scopes,
          strIncludes scope.path requiredPath = true ∧
          scope.permissions.contains permission = true) := by
  refine ⟨fun pattern required => ?_, by decide, by decide, by decide,
    fun token requiredPath permission => ?_⟩
  · unfold matchScope
    rcases h : pattern == required with _ | _
    · simp only [Bool.false_eq_true, if_false]
      have hne : ¬ pattern = required := fun hc => by simp [hc] at h
      by_cases he : strEndsWith pattern "/*" = true
      · simp [he, hne]
      · simp [Bool.of_not_eq_true he, hne]
    · have : pattern = required := by simpa using h
      simp [this]
  · unfold hasScope
    simp [List.any_eq_true, Bool.and_eq_true]

/-! ## C6 — expiry is a strict comparison in the code -/

/-- Sample capability token whose `exp` equals the current clock reading
used in the C6 counterexample. -/
def boundaryToken : CapabilityToken :=
  { v := 1
    id := "tok-1"
    iss := "did:key:user"
    sub := "agent-pk"
    iat := 0
    exp := 100
    scopes := [{ path := "health/*", permissions := ["read"] }]
    bucketId := "bucket-1"
    resources := ["health/metrics"]
    cdnUrl := "https://cdn.example"
    wrappedDEK := { ciphertext := "ct", ephemeralPublicKey := "epk", nonce := "n" }
    sig := "sig"
    sigAlg := "ed25519" }

/-- Sample SDK access token whose `expiresAt` equals the clock reading used
in the C6 counterexample. -/
def boundaryAccessToken : AccessToken :=
  { tokenId := "t1"
    agentId := "agent-1"
    scopes := ["health/sleep/*"]
    createdAt := 0
    expiresAt := 100
    agentKey := "k"
    revoked := false }

/-- C6 counterexample: the claim states that a grant with
`expiresAt <= now` is already expired (equality included).  The code tests
`token.exp < now` (and the SDK tests `expiresAt < now`), so a token whose
expiry equals the current time is NOT expired: `isTokenExpired` returns
`false` and the SDK `validateToken` returns a valid verdict at the
boundary instant. -/
theorem expiry_boundary_cex :
    boundaryToken.exp ≤ 100 ∧
    isTokenExpired boundaryToken 100 = false ∧
    boundaryAccessToken.expiresAt ≤ 100 ∧
    validateToken [("t1", boundaryAccessToken)] "t1" none 100 =
      .valid boundaryAccessToken := by
  decide

/-- C6 amended: the time check is strict in the other direction — a grant
is rejected as expired exactly when `expiresAt` is strictly less than
`now`, so the grant is accepted on the time check whenever
`now ≤ expiresAt`, and a grant whose `expiresAt` equals `now` still
passes.  Stated for `isTokenExpired` and for the SDK `validateToken` of a
stored, unrevoked token checked without a scope argument. -/
theorem expiry_check_is_strict :
    (∀ (token : CapabilityToken) (now : Nat),
      isTokenExpired token now = true ↔ token.exp < now) ∧
    (∀ (tokens : TokenStore) (tokenId : String) (token : AccessToken)
        (now : Nat),
      tokensGet tokens tokenId = some token →
      token.revoked = false →
      now ≤ token.expiresAt →
      validateToken tokens tokenId none now = .valid token) := by
  constructor
  · intro token now
    simp [isTokenExpired]
  · intro tokens tokenId token now hget hrev hle
    simp [validateToken, hget, hrev, Nat.not_lt.mpr hle]

/-- C6 amended, witness: the boundary token of the counterexample is
accepted by `validateToken` at the instant its expiry is reached. -/
theorem expiry_check_is_strict_witness :
    validateToken [("t1", boundaryAccessToken)] "t1" none 100 =
      .valid boundaryAccessToken :=
  expiry_check_is_strict.2 [("t1", boundaryAccessToken)] "t1"
    boundaryAccessToken 100 (by decide) (by decide) (by decide)

/-! ## C2 — the GrantValidator rejects a wrong subject first

The validator called by the health-analyzer server (`validateToken` of the
agent-sdk, imported from `agent-sdk/dist/index.mjs`) is not part of the
repository's files; only its caller is.  It is modelled from the spec. -/

/-- Rejection reasons of the GrantValidator (spec section 4.3 / 7). -/
inductive RejectionReason where
  | WrongSubject
  | Expired
  | BadSignature
  | ScopeDenied
deriving DecidableEq, Repr

/-- Capability grant as the spec's data model describes it: `subject` must
equal the agent's public key, `issuedAt`/`expiresAt` are Unix seconds,
signature and algorithm are optional. -/
structure CapabilityGrant where
  id : String
  issuer : String
  subject : String
  issuedAt : Nat
  expiresAt : Nat
  scopes : List Scope
  resourceLocator : String
  wrappedKey : WrappedDEK
  signature : Option String
  signatureAlgorithm : Option String
deriving DecidableEq, Repr

/-- Spec section 4.3 check 4: every scope path is non-empty and every
permission is one of `read`/`write`. -/
def scopeWellFormed (scope : Scope) : Bool :=
  scope.path ≠ "" && scope.permissions.all fun p => p == "read" || p == "write"

/-- Modelled from the spec: the agent-sdk's `validateToken` (GrantValidator,
`validate(grant, now, agentPublicKey)`), whose implementation is not among
the repository's files (the health-analyzer server only imports it from
`agent-sdk/dist`).  Spec section 4.3, checks in order, first failure
short-circuits: 1. `grant.subject == agentPublicKey` else `WrongSubject`;
2. `now < grant.expiresAt` else `Expired`; 3. if a signature is present it
must verify (the external Ed25519 verification is the parameter
`sigVerifies`) else `BadSignature`; 4. scope well-formedness else
`ScopeDenied`. -/
def validate (sigVerifies : CapabilityGrant → Bool) (grant : CapabilityGrant)
    (now : Nat) (agentPublicKey : String) :
    Except RejectionReason CapabilityGrant :=
  if grant.subject ≠ agentPublicKey then .error .WrongSubject
  else if ¬ now < grant.expiresAt then .error .Expired
  else if grant.signature.isSome ∧ ¬ sigVerifies grant then .error .BadSignature
  else if ¬ grant.scopes.all scopeWellFormed then .error .ScopeDenied
  else .ok grant

/-- C2: for every grant whose subject differs from the agent's public key,
`validate` returns `WrongSubject`, whatever the expiry, signature,
signature verifier and scopes are — the subject check is performed first
and short-circuits all others. -/
theorem validate_wrong_subject_first (sigVerifies : CapabilityGrant → Bool)
    (grant : CapabilityGrant) (now : Nat) (agentPublicKey : String)
    (hsub : grant.subject ≠ agentPublicKey) :
    validate sigVerifies grant now agentPublicKey = .error .WrongSubject := by
  simp [validate, hsub]

/-- Sample grant for the C2 witness: well-formed, unexpired, carrying a
signature that verifies, but issued to a different agent. -/
def wrongSubjectGrant : CapabilityGrant :=
  { id := "grant-1"
    issuer := "did:key:user"
    subject := "other-agent-pk"
    issuedAt := 0
    expiresAt := 1000
    scopes := [{ path := "health/metrics", permissions := ["read"] }]
    resourceLocator := "bucket-1/cid-1"
    wrappedKey := { ciphertext := "ct", ephemeralPublicKey := "epk", nonce := "n" }
    signature := some "sig"
    signatureAlgorithm := some "ed25519" }

/-- C2 witness: the sample grant, although unexpired, well-scoped and
carrying a verifying signature, is rejected as `WrongSubject` at time 10
by the agent whose public key is `"agent-pk"`. -/
theorem validate_wrong_subject_first_witness :
    validate (fun _ => true) wrongSubjectGrant 10 "agent-pk" =
      .error .WrongSubject :=
  validate_wrong_subject_first (fun _ => true) wrongSubjectGrant 10
    "agent-pk" (by decide)

/-! ## C3 — the keypair store on a corrupt persisted file

The health-analyzer keypair module persists the agent's X25519 keypair in
`keys/agent-keypair.json`.  `loadKeypair` returns `null` when the file does
not exist, and also — inside a `try/catch` that logs the error — when
`JSON.parse`/`decodeBase64` fail on its contents.  `getOrCreateKeypair`
generates and saves a fresh keypair whenever `loadKeypair` returned
`null`.  The file system is modelled as the file's optional contents, the
decoder (`JSON.parse` + base64 decoding) and encoder as explicit
functions, and the CSPRNG output (`nacl.box.keyPair()`) as the
`freshKeypair` argument. -/

structure AgentKeypair where
  publicKey : List Nat
  privateKey : List Nat
deriving DecidableEq, Repr

/-- Transcribes `loadKeypair()`: `null` when the file is absent; otherwise
the decoded record, or `null` when decoding throws (the `catch` branch,
which logs `[keys] Failed to load keypair`). -/
def loadKeypair (file : Option String)
    (decode : String → Option AgentKeypair) : Option AgentKeypair :=
  match file with
  | none => none
  | some content => decode content

/-- Outcome of `getOrCreateKeypair`: the keypair handed to the caller, the
post-state of the persisted file, and whether a fresh keypair was
generated and saved. -/
structure KeyStoreOutcome where
  keypair : AgentKeypair
  file : Option String
  generatedNew : Bool
deriving DecidableEq, Repr

/-- Transcribes `getOrCreateKeypair()`: return the loaded keypair when
`loadKeypair` succeeded, otherwise generate a fresh one (`generateKeypair`,
modelled by the `freshKeypair` argument) and save it (`saveKeypair`,
modelled by writing `encode freshKeypair` to the file). -/
def getOrCreateKeypair (file : Option String)
    (decode : String → Option AgentKeypair)
    (encode : AgentKeypair → String)
    (freshKeypair : AgentKeypair) : KeyStoreOutcome :=
  match loadKeypair file decode with
  | some keypair => { keypair := keypair, file := file, generatedNew := false }
  | none =>
    { keypair := freshKeypair
      file := some (encode freshKeypair)
      generatedNew := true }

/-- C3 counterexample: the claim states that when the persisted keypair
file exists but cannot be decoded, `getOrCreateKeypair` fails with a
corruption error and never silently generates and saves a fresh keypair.
With the file present but undecodable (the decoder rejects its contents),
the code instead returns a freshly generated keypair and overwrites the
file with it — the same outcome as a first run with no file at all. -/
theorem getOrCreateKeypair_regenerates_on_corrupt_cex :
    getOrCreateKeypair (some "corrupt-json") (fun _ => none)
        (fun _ => "encoded-fresh") { publicKey := [1], privateKey := [2] } =
      { keypair := { publicKey := [1], privateKey := [2] }
        file := some "encoded-fresh"
        generatedNew := true } := by
  decide

/-- C3 amended: when the persisted keypair file exists but its contents
cannot be decoded, `loadKeypair` returns `null` (after logging the error)
and `getOrCreateKeypair` behaves exactly as on a first run with no file:
it generates a fresh keypair, saves it over the corrupt file, and returns
it — it never fails. -/
theorem getOrCreateKeypair_corrupt_is_first_run (content : String)
    (decode : String → Option AgentKeypair) (encode : AgentKeypair → String)
    (freshKeypair : AgentKeypair) (hcorrupt : decode content = none) :
    getOrCreateKeypair (some content) decode encode freshKeypair =
        getOrCreateKeypair none decode encode freshKeypair ∧
    getOrCreateKeypair (some content) decode encode freshKeypair =
      { keypair := freshKeypair
        file := some (encode freshKeypair)
        generatedNew := true } := by
  simp [getOrCreateKeypair, loadKeypair, hcorrupt]

/-- C3 amended, witness: a concrete corrupt file is treated as a first
run. -/
theorem getOrCreateKeypair_corrupt_is_first_run_witness :
    getOrCreateKeypair (some "garbage") (fun _ => none) (fun _ => "enc")
        { publicKey := [3], privateKey := [4] } =
      getOrCreateKeypair none (fun _ => none) (fun _ => "enc")
        { publicKey := [3], privateKey := [4] } :=
  (getOrCreateKeypair_corrupt_is_first_run "garbage" (fun _ => none)
    (fun _ => "enc") { publicKey := [3], privateKey := [4] } rfl).1

/-! ## Audit trail — SHA-256 hash chain (`src/lib/proofi-sdk.js` 157-195)

An entry is built from `{timestamp, action, details, prevHash}`; its `hash`
field is `btoa(SHA-256(JSON.stringify(entry)))` computed before the entry
is pushed.  `verifyChain` re-runs exactly the same serialization-and-digest
computation on the entry minus its `hash` field.  That computation —
identical at both sites — is modelled as one external function `hashFn`
from the hash-free part of an entry to the digest string.  The `details`
object is modelled by its serialized form. -/

structure AuditPre where
  timestamp : Nat
  action : String
  details : String
  prevHash : String
deriving DecidableEq, Repr

structure AuditEntry where
  timestamp : Nat
  action : String
  details : String
  prevHash : String
  hash : String
deriving DecidableEq, Repr

/-- The entry with its own `hash` field excluded (the `{ hash, ...rest }`
destructuring in `verifyChain`). -/
def AuditEntry.pre (e : AuditEntry) : AuditPre :=
  { timestamp := e.timestamp
    action := e.action
    details := e.details
    prevHash := e.prevHash }

/-- Genesis sentinel `'0'.repeat(64)`: 64 zero hex digits. -/
def genesisHash : String :=
  String.mk (List.replicate 64 '0')

/-- The hash of the chain's tail entry, or `expectedPrev` for an empty
chain (`addAuditEntry` uses it with `expectedPrev := genesisHash`). -/
def tailHashFrom (expectedPrev : String) (chain : List AuditEntry) : String :=
  match chain.getLast? with
  | some e => e.hash
  | none => expectedPrev

/-- Transcribes `addAuditEntry(action, details)`: `prevHash` is the last
entry's hash or the genesis sentinel, the entry is hashed without its
`hash` field and pushed.  `timestamp` is the `Date.now()` reading. -/
def addAuditEntry (hashFn : AuditPre → String) (chain : List AuditEntry)
    (timestamp : Nat) (action details : String) : List AuditEntry :=
  let prevHash := tailHashFrom genesisHash chain
  let pre : AuditPre :=
    { timestamp := timestamp, action := action, details := details
      prevHash := prevHash }
  chain ++ [{ timestamp := timestamp, action := action, details := details
              prevHash := prevHash, hash := hashFn pre }]

inductive VerifyResult where
  | valid (entries : Nat)
  | invalid (brokenAt : Nat) (reason : String)
deriving DecidableEq, Repr

/-- The loop of `verifyChain` from position `i`, with `expectedPrev` the
hash the next entry's `prevHash` must equal: first the `prevHash` check
(`'prevHash mismatch'`), then the recomputed-digest check
(`'Hash mismatch'`); on success `{ valid: true, entries }`. -/
def verifyFrom (hashFn : AuditPre → String) (expectedPrev : String)
    (i : Nat) : List AuditEntry → VerifyResult
  | [] => .valid i
  | e :: rest =>
    if e.prevHash ≠ expectedPrev then .invalid i "prevHash mismatch"
    else if hashFn e.pre ≠ e.hash then .invalid i "Hash mismatch"
    else verifyFrom hashFn e.hash (i + 1) rest

/-- Transcribes `verifyChain()` (lines 178-195). -/
def verifyChain (hashFn : AuditPre → String) (chain : List AuditEntry) :
    VerifyResult :=
  verifyFrom hashFn genesisHash 0 chain

/-- A chain whose appends all happened via `addAuditEntry`, from the
operations `(timestamp, action, details)` in order. -/
def buildChain (hashFn : AuditPre → String)
    (ops : List (Nat × String × String)) : List AuditEntry :=
  ops.foldl (fun chain op => addAuditEntry hashFn chain op.1 op.2.1 op.2.2) []

/-- Well-linked chain relative to the hash expected of the first entry:
each entry's `prevHash` is the previous entry's stored hash (or
`expectedPrev` for the first) and each entry's `hash` is the digest of the
entry without its `hash` field. -/
def chainOkFrom (hashFn : AuditPre → String) :
    String → List AuditEntry → Prop
  | _, [] => True
  | expectedPrev, e :: rest =>
    e.prevHash = expectedPrev ∧ e.hash = hashFn e.pre ∧
      chainOkFrom hashFn e.hash rest

theorem verifyFrom_of_chainOk (hashFn : AuditPre → String) :
    ∀ (chain : List AuditEntry) (expectedPrev : String) (i : Nat),
      chainOkFrom hashFn expectedPrev chain →
      verifyFrom hashFn expectedPrev i chain = .valid (i + chain.length)
  | [], _, i, _ => by simp [verifyFrom]
  | e :: rest, expectedPrev, i, h => by
    obtain ⟨hprev, hhash, hrest⟩ := h
    rw [verifyFrom, if_neg (by simp [hprev]), if_neg (by simp [hhash]),
      verifyFrom_of_chainOk hashFn rest e.hash (i + 1) hrest]
    simp [List.length_cons]
    omega

theorem tailHashFrom_cons (expectedPrev : String) (e : AuditEntry)
    (rest : List AuditEntry) :
    tailHashFrom expectedPrev (e :: rest) = tailHashFrom e.hash rest := by
  cases rest <;> simp [tailHashFrom, List.getLast?]

theorem chainOkFrom_append (hashFn : AuditPre → String) :
    ∀ (chain : List AuditEntry) (expectedPrev : String) (e : AuditEntry),
      chainOkFrom hashFn expectedPrev chain →
      e.prevHash = tailHashFrom expectedPrev chain →
      e.hash = hashFn e.pre →
      chainOkFrom hashFn expectedPrev (chain ++ [e])
  | [], expectedPrev, e, _, hp, hh => by
    refine ⟨?_, hh, trivial⟩
    simpa [tailHashFrom] using hp
  | f :: rest, expectedPrev, e, h, hp, hh => by
    obtain ⟨hprev, hhash, hrest⟩ := h
    exact ⟨hprev, hhash,
      chainOkFrom_append hashFn rest f.hash e hrest
        (by rwa [tailHashFrom_cons] at hp) hh⟩

theorem chainOkFrom_addAuditEntry (hashFn : AuditPre → String)
    (chain : List AuditEntry) (timestamp : Nat) (action details : String)
    (h : chainOkFrom hashFn genesisHash chain) :
    chainOkFrom hashFn genesisHash
      (addAuditEntry hashFn chain timestamp action details) :=
  chainOkFrom_append hashFn chain genesisHash _ h rfl rfl

theorem chainOkFrom_buildChain_go (hashFn : AuditPre → String) :
    ∀ (ops : List (Nat × String × String)) (chain : List AuditEntry),
      chainOkFrom hashFn genesisHash chain →
      chainOkFrom hashFn genesisHash
        (ops.foldl
          (fun chain op => addAuditEntry hashFn chain op.1 op.2.1 op.2.2)
          chain)
  | [], _, h => h
  | op :: ops, chain, h =>
    chainOkFrom_buildChain_go hashFn ops _
      (chainOkFrom_addAuditEntry hashFn chain op.1 op.2.1 op.2.2 h)

theorem chainOkFrom_buildChain (hashFn : AuditPre → String)
    (ops : List (Nat × String × String)) :
    chainOkFrom hashFn genesisHash (buildChain hashFn ops) :=
  chainOkFrom_buildChain_go hashFn ops [] trivial

theorem chainOkFrom_link (hashFn : AuditPre → String) :
    ∀ (chain : List AuditEntry) (expectedPrev : String) (i : Nat)
      (h : i + 1 < chain.length),
      chainOkFrom hashFn expectedPrev chain →
      (chain.get ⟨i + 1, h⟩).prevHash =
        (chain.get ⟨i, Nat.lt_of_succ_lt h⟩).hash
  | e :: f :: rest, expectedPrev, 0, _, hok => hok.2.2.1
  | e :: f :: rest, expectedPrev, i + 1, h, hok =>
    chainOkFrom_link hashFn (f :: rest) e.hash i
      (by simpa using Nat.lt_of_succ_lt_succ h) hok.2.2
  | [e], _, i, h, _ => by simp at h
  | [], _, i, h, _ => by simp at h

theorem chainOkFrom_head (hashFn : AuditPre → String) :
    ∀ (chain : List AuditEntry) (expectedPrev : String)
      (h0 : 0 < chain.length),
      chainOkFrom hashFn expectedPrev chain →
      (chain.get ⟨0, h0⟩).prevHash = expectedPrev
  | e :: rest, _, _, hok => hok.1
  | [], _, h0, _ => by simp at h0

theorem chainOkFrom_mem (hashFn : AuditPre → String) :
    ∀ (chain : List AuditEntry) (expectedPrev : String),
      chainOkFrom hashFn expectedPrev chain →
      ∀ e ∈ chain, e.hash = hashFn e.pre
  | [], _, _, e, he => by simp at he
  | f :: rest, expectedPrev, hok, e, he => by
    rcases List.mem_cons.mp he with h | h
    · exact h ▸ hok.2.1
    · exact chainOkFrom_mem hashFn rest f.hash hok.2.2 e h

/-- C4: every chain built purely through sequential `addAuditEntry` calls
starting from the empty chain verifies as valid, and satisfies the
invariant: the first entry's `prevHash` is 64 zero hex digits, each later
entry's `prevHash` equals the previous entry's hash, and every entry's
`hash` is the digest of the entry's serialization excluding its own hash
field.  Quantified over the digest function `hashFn` (the external
SHA-256-and-base64 computation) and the appended operations. -/
theorem auditChain_append_verify_and_invariant
    (hashFn : AuditPre → String) (ops : List (Nat × String × String)) :
    verifyChain hashFn (buildChain hashFn ops) =
        .valid (buildChain hashFn ops).length ∧
    (∀ h0 : 0 < (buildChain hashFn ops).length,
      ((buildChain hashFn ops).get ⟨0, h0⟩).prevHash = genesisHash) ∧
    (∀ (i : Nat) (h : i + 1 < (buildChain hashFn ops).length),
      ((buildChain hashFn ops).get ⟨i + 1, h⟩).prevHash =
        ((buildChain hashFn ops).get ⟨i, Nat.lt_of_succ_lt h⟩).hash) ∧
    (∀ e ∈ buildChain hashFn ops, e.hash = hashFn e.pre) := by
  have hok := chainOkFrom_buildChain hashFn ops
  refine ⟨?_, ?_, ?_, chainOkFrom_mem hashFn _ _ hok⟩
  · simpa [verifyChain] using
      verifyFrom_of_chainOk hashFn (buildChain hashFn ops) genesisHash 0 hok
  · intro h0
    exact chainOkFrom_head hashFn _ genesisHash h0 hok
  · intro i h
    exact chainOkFrom_link hashFn _ genesisHash i h hok

/-! ## C5 — tampering with a historical entry breaks verification -/

/-- Alter the `details` field of the entry at position `i`, leaving every
other field and every other entry unchanged. -/
def setDetails : List AuditEntry → Nat → String → List AuditEntry
  | [], _, _ => []
  | e :: rest, 0, d => { e with details := d } :: rest
  | e :: rest, i + 1, d => e :: setDetails rest i d

/-- The hash-free part of an entry after its `details` field was altered
to `d`. -/
def tamperPre (e : AuditEntry) (d : String) : AuditPre :=
  { timestamp := e.timestamp
    action := e.action
    details := d
    prevHash := e.prevHash }

theorem verifyFrom_setDetails (hashFn : AuditPre → String) (d : String) :
    ∀ (chain : List AuditEntry) (expectedPrev : String) (j i : Nat)
      (h : i < chain.length),
      chainOkFrom hashFn expectedPrev chain →
      hashFn (tamperPre (chain.get ⟨i, h⟩) d) ≠ (chain.get ⟨i, h⟩).hash →
      verifyFrom hashFn expectedPrev j (setDetails chain i d) =
        .invalid (j + i) "Hash mismatch"
  | [], _, _, i, h, _, _ => by simp at h
  | e :: rest, expectedPrev, j, 0, _, hok, hne => by
    have hne' : hashFn (tamperPre e d) ≠ e.hash := by
      simpa [List.get] using hne
    rw [setDetails, verifyFrom, if_neg (by simp [hok.1]),
      if_pos (by simpa [tamperPre, AuditEntry.pre] using hne')]
    simp
  | e :: rest, expectedPrev, j, i + 1, h, hok, hne => by
    rw [setDetails, verifyFrom, if_neg (by simp [hok.1]),
      if_neg (by simp [hok.2.1])]
    rw [verifyFrom_setDetails hashFn d rest e.hash (j + 1) i
      (by simpa using Nat.lt_of_succ_lt_succ h) hok.2.2
      (by simpa [List.get] using hne)]
    congr 1
    omega

/-- C5: in a chain built purely through sequential `addAuditEntry` calls,
altering the `details` of the entry at any index `i` to a different value
whose recomputed digest differs from the stored one (the collision-freedom
that SHA-256 provides) makes `verifyChain` report invalid with
`brokenAt = i` — at, hence at or after, the tampered index. -/
theorem auditChain_tamper_detected (hashFn : AuditPre → String)
    (ops : List (Nat × String × String)) (i : Nat) (d : String)
    (hi : i < (buildChain hashFn ops).length)
    (_hdiff : d ≠ ((buildChain hashFn ops).get ⟨i, hi⟩).details)
    (hnocollision :
      hashFn (tamperPre ((buildChain hashFn ops).get ⟨i, hi⟩) d) ≠
        ((buildChain hashFn ops).get ⟨i, hi⟩).hash) :
    verifyChain hashFn (setDetails (buildChain hashFn ops) i d) =
      .invalid i "Hash mismatch" := by
  have := verifyFrom_setDetails hashFn d (buildChain hashFn ops)
    genesisHash 0 i hi (chainOkFrom_buildChain hashFn ops) hnocollision
  simpa [verifyChain] using this

/-- Concrete stand-in digest for the C5 witness (injective on the entries
it meets there). -/
def demoHash (pre : AuditPre) : String :=
  "H[" ++ pre.action ++ "|" ++ pre.details ++ "|" ++ pre.prevHash ++ "]"

/-- Concrete operations for the C5 witness. -/
def demoOps : List (Nat × String × String) :=
  [(1, "TOKEN_CREATED", "tokenId=t1"), (2, "AGENT_EXECUTED", "records=42")]

/-- C5 witness: flipping the first entry's details of a concrete two-entry
chain is reported at index 0. -/
theorem auditChain_tamper_detected_witness :
    verifyChain demoHash (setDetails (buildChain demoHash demoOps) 0
        "tokenId=t9") =
      .invalid 0 "Hash mismatch" :=
  auditChain_tamper_detected demoHash demoOps 0 "tokenId=t9" (by decide)
    (by decide) (by decide)

/-! ## C7 — the AES-GCM payload envelope (`encryptData` / `decryptData`)

`encryptData` wraps WebCrypto AES-256-GCM output in the JSON envelope
`{ ciphertext: btoa(...), iv: btoa(...), algorithm: 'AES-256-GCM' }`;
`decryptData` parses the envelope, checks the algorithm tag, base64-decodes
and calls `crypto.subtle.decrypt`, which rejects with an `OperationError`
when the 16-byte authentication tag does not verify.  The envelope is
modelled as a record (`JSON.parse`/`stringify` of it are inverse); the
external primitives are parameters: `enc`/`dec` the AES-GCM cipher (a
`dec` returning `none` is the authentication-tag rejection), `b64encode`
and `b64decode` the `btoa`/`atob` pair, `strEncode`/`strDecode` the
`TextEncoder`/`TextDecoder` pair.  Byte strings are `List Nat`. -/

structure EncryptedPayload where
  ciphertext : String
  iv : String
  algorithm : String
deriving DecidableEq, Repr

/-- Transcribes `encryptData(data, key)` (lines 88-101); the random 96-bit
IV from `crypto.getRandomValues` is passed in. -/
def encryptData (enc : List Nat → List Nat → List Nat → List Nat)
    (b64encode : List Nat → String) (strEncode : String → List Nat)
    (key iv : List Nat) (data : String) : EncryptedPayload :=
  { ciphertext := b64encode (enc key iv (strEncode data))
    iv := b64encode iv
    algorithm := "AES-256-GCM" }

/-- Transcribes `decryptData(encryptedPayload, key)` (lines 73-86):
unsupported algorithm tags are rejected first; then the authenticated
decryption either yields the plaintext bytes or throws. -/
def decryptData (dec : List Nat → List Nat → List Nat → Option (List Nat))
    (b64decode : String → List Nat) (strDecode : List Nat → String)
    (payload : EncryptedPayload) (key : List Nat) : Except String String :=
  if payload.algorithm ≠ "AES-256-GCM" then
    .error ("Unsupported algorithm: " ++ payload.algorithm)
  else
    match dec key (b64decode payload.iv) (b64decode payload.ciphertext) with
    | some plaintext => .ok (strDecode plaintext)
    | none => .error "OperationError"

/-- C7: decrypting the envelope produced by `encryptData` under the same
key yields exactly the original plaintext, and under any different key the
authenticated decryption rejects, so `decryptData` fails with the
authentication error.  The hypotheses state, at the values involved, the
defining properties of the external primitives: the base64 and text
codecs invert, AES-GCM decryption under the encrypting key recovers the
plaintext, and under a different key the authentication tag check
rejects. -/
theorem encryptData_decryptData_roundtrip
    (enc : List Nat → List Nat → List Nat → List Nat)
    (dec : List Nat → List Nat → List Nat → Option (List Nat))
    (b64encode : List Nat → String) (b64decode : String → List Nat)
    (strEncode : String → List Nat) (strDecode : List Nat → String)
    (key altKey iv : List Nat) (data : String)
    (hb64iv : b64decode (b64encode iv) = iv)
    (hb64ct : b64decode (b64encode (enc key iv (strEncode data))) =
      enc key iv (strEncode data))
    (hdec : dec key iv (enc key iv (strEncode data)) =
      some (strEncode data))
    (hstr : strDecode (strEncode data) = data)
    (_hkey : altKey ≠ key)
    (hauth : dec altKey iv (enc key iv (strEncode data)) = none) :
    decryptData dec b64decode strDecode
        (encryptData enc b64encode strEncode key iv data) key = .ok data ∧
    decryptData dec b64decode strDecode
        (encryptData enc b64encode strEncode key iv data) altKey =
      .error "OperationError" := by
  constructor
  · simp [decryptData, encryptData, hb64iv, hb64ct, hdec, hstr]
  · simp [decryptData, encryptData, hb64iv, hb64ct, hauth]

/-- Toy cipher for the C7 witness: the "ciphertext" is the plaintext and
only the key `[1]` opens it. -/
def demoEnc (_key _iv plaintext : List Nat) : List Nat := plaintext

/-- Toy authenticated decryption for the C7 witness. -/
def demoDec (key _iv ciphertext : List Nat) : Option (List Nat) :=
  if key = [1] then some ciphertext else none

/-- Toy byte-to-text codec for the C7 witness. -/
def demoB64encode (bytes : List Nat) : String :=
  String.mk (bytes.map fun n => Char.ofNat (n + 65))

/-- Toy text-to-byte codec for the C7 witness. -/
def demoB64decode (s : String) : List Nat :=
  s.data.map fun c => c.toNat - 65

/-- Toy text encoder for the C7 witness. -/
def demoStrEncode (s : String) : List Nat :=
  s.data.map Char.toNat

/-- Toy text decoder for the C7 witness. -/
def demoStrDecode (bytes : List Nat) : String :=
  String.mk (bytes.map Char.ofNat)

/-- C7 witness: with the toy primitives, key `[1]`, wrong key `[2]`,
IV `[3]` and plaintext `"hi"`, the envelope decrypts to `"hi"` under the
right key and is rejected under the wrong one. -/
theorem encryptData_decryptData_roundtrip_witness :
    decryptData demoDec demoB64decode demoStrDecode
        (encryptData demoEnc demoB64encode demoStrEncode [1] [3] "hi") [1] =
      .ok "hi" ∧
    decryptData demoDec demoB64decode demoStrDecode
        (encryptData demoEnc demoB64encode demoStrEncode [1] [3] "hi") [2] =
      .error "OperationError" :=
  encryptData_decryptData_roundtrip demoEnc demoDec demoB64encode
    demoB64decode demoStrEncode demoStrDecode [1] [2] [3] "hi" (by decide)
    (by decide) (by decide) (by decide) (by decide) (by decide)

/-! ## C8 — the error conditions of `unwrapDEK`

`unwrapDEK(wrappedDEK, recipientPrivateKey)` base64-decodes the three
fields in order (ciphertext, ephemeral public key, nonce) with
`naclUtil.decodeBase64` — which THROWS (`invalid encoding`) on a string
that is not valid base64 — then calls `nacl.box.open(ciphertext, nonce,
ephemeralPubKey, recipientPrivateKey)` — which itself THROWS on
wrong-sized keys or nonce (`bad public key size`, `bad secret key size`,
`bad nonce size`) and returns `null` only for an authentication failure
(wrong key, corrupted ciphertext, tampering).  Only that `null` is turned
into `unwrapDEK`'s own thrown error; every other exception propagates to
the caller unchanged.

The fallible externals are parameters: `decodeBase64` returns
`Except String (List Nat)` (`.error` is the thrown `TypeError`'s message)
and `boxOpen` returns `Except String (Option (List Nat))` (`.error` a
thrown size error, `.ok none` the `null` rejection, `.ok (some dek)` the
opened box). -/

def unwrapDEK
    (boxOpen : List Nat → List Nat → List Nat → List Nat →
      Except String (Option (List Nat)))
    (decodeBase64 : String → Except String (List Nat))
    (wrappedDEK : WrappedDEK) (recipientPrivateKey : List Nat) :
    Except String (List Nat) :=
  match decodeBase64 wrappedDEK.ciphertext with
  | .error e => .error e
  | .ok ciphertext =>
    match decodeBase64 wrappedDEK.ephemeralPublicKey with
    | .error e => .error e
    | .ok ephemeralPubKey =>
      match decodeBase64 wrappedDEK.nonce with
      | .error e => .error e
      | .ok nonce =>
        match boxOpen ciphertext nonce ephemeralPubKey
            recipientPrivateKey with
        | .error e => .error e
        | .ok none =>
          .error "DEK unwrapping failed - invalid key or corrupted data"
        | .ok (some dek) => .ok dek

/-- The `nacl.box.open` of the C8 counterexample: a primitive that never
rejects and never throws, so any failure of `unwrapDEK` with it cannot
come from authenticated decryption. -/
def alwaysOpensBox (_ciphertext _nonce _ephemeralPubKey
    _recipientPrivateKey : List Nat) : Except String (Option (List Nat)) :=
  .ok (some [7])

/-- The `naclUtil.decodeBase64` of the C8 counterexample: as the library
does, it throws `invalid encoding` on the non-base64 string `"!!!"` and
decodes everything else. -/
def demoDecodeBase64 (s : String) : Except String (List Nat) :=
  if s = "!!!" then .error "invalid encoding" else .ok [0, 1]

/-- C8 counterexample: the claim states that `unwrapDEK` has exactly one
error condition — it fails precisely when the authenticated-decryption
primitive rejects.  But on a wrapped key whose `ciphertext` field is not
valid base64, `naclUtil.decodeBase64` throws `invalid encoding` before
`nacl.box.open` ever runs: here the primitive accepts everything, yet
`unwrapDEK` fails, and with an error other than the authentication
failure. -/
theorem unwrapDEK_extra_error_path_cex :
    unwrapDEK alwaysOpensBox demoDecodeBase64
        { ciphertext := "!!!", ephemeralPublicKey := "QUFBQQ==",
          nonce := "QUFBQQ==" } [1] =
      .error "invalid encoding" ∧
    "invalid encoding" ≠
      "DEK unwrapping failed - invalid key or corrupted data" := by
  exact ⟨rfl, by decide⟩

/-- C8 amended: `unwrapDEK` adds exactly one error of its own — once the
three base64 decodes succeed and `nacl.box.open` returns rather than
throws, it fails with the authentication-failure error precisely when the
primitive rejects the ciphertext (wrong key, corrupted ciphertext, or
tampering), and otherwise returns the recovered DEK whole, with no
partial success.  The further error conditions are exact propagation: a
field that is not valid base64 fails with the decoder's `invalid
encoding` error, and a size error thrown by `nacl.box.open` itself
propagates unchanged. -/
theorem unwrapDEK_error_characterization
    (boxOpen : List Nat → List Nat → List Nat → List Nat →
      Except String (Option (List Nat)))
    (decodeBase64 : String → Except String (List Nat))
    (wrappedDEK : WrappedDEK) (recipientPrivateKey : List Nat) :
    (∀ e, decodeBase64 wrappedDEK.ciphertext = .error e →
      unwrapDEK boxOpen decodeBase64 wrappedDEK recipientPrivateKey =
        .error e) ∧
    (∀ ct e, decodeBase64 wrappedDEK.ciphertext = .ok ct →
      decodeBase64 wrappedDEK.ephemeralPublicKey = .error e →
      unwrapDEK boxOpen decodeBase64 wrappedDEK recipientPrivateKey =
        .error e) ∧
    (∀ ct epk e, decodeBase64 wrappedDEK.ciphertext = .ok ct →
      decodeBase64 wrappedDEK.ephemeralPublicKey = .ok epk →
      decodeBase64 wrappedDEK.nonce = .error e →
      unwrapDEK boxOpen decodeBase64 wrappedDEK recipientPrivateKey =
        .error e) ∧
    (∀ ct epk n e, decodeBase64 wrappedDEK.ciphertext = .ok ct →
      decodeBase64 wrappedDEK.ephemeralPublicKey = .ok epk →
      decodeBase64 wrappedDEK.nonce = .ok n →
      boxOpen ct n epk recipientPrivateKey = .error e →
      unwrapDEK boxOpen decodeBase64 wrappedDEK recipientPrivateKey =
        .error e) ∧
    (∀ ct epk n r, decodeBase64 wrappedDEK.ciphertext = .ok ct →
      decodeBase64 wrappedDEK.ephemeralPublicKey = .ok epk →
      decodeBase64 wrappedDEK.nonce = .ok n →
      boxOpen ct n epk recipientPrivateKey = .ok r →
      ((unwrapDEK boxOpen decodeBase64 wrappedDEK recipientPrivateKey =
          .error "DEK unwrapping failed - invalid key or corrupted data" ↔
        r = none) ∧
       (∀ dek,
        unwrapDEK boxOpen decodeBase64 wrappedDEK recipientPrivateKey =
            .ok dek ↔
          r = some dek))) := by
  refine ⟨fun e h => ?_, fun ct e h1 h2 => ?_, fun ct epk e h1 h2 h3 => ?_,
    fun ct epk n e h1 h2 h3 h4 => ?_, fun ct epk n r h1 h2 h3 h4 => ?_⟩
  · simp [unwrapDEK, h]
  · simp [unwrapDEK, h1, h2]
  · simp [unwrapDEK, h1, h2, h3]
  · simp [unwrapDEK, h1, h2, h3, h4]
  · cases r <;> simp [unwrapDEK, h1, h2, h3, h4]

/-! ## C9 — validation never mutates the token

`verifyTokenSignature(token, issuerPublicKey)` spreads the token into a
fresh object (`const payload = { ...token }`) and deletes `sig`/`sigAlg`
on that copy only; the serialized copy is what the external Ed25519
verification (`nacl.sign.detached.verify`, parameter `verifyDetached`)
sees.  The copy-without-signature-fields is the `TokenPayload` record.
Each validation function is embedded with the post-state of its token
argument made explicit, so that "the source assigns to no field of the
token" is a provable statement rather than a typing convention. -/

structure TokenPayload where
  v : Nat
  id : String
  iss : String
  sub : String
  iat : Nat
  exp : Nat
  scopes : List Scope
  bucketId : String
  resources : List String
  cdnUrl : String
  wrappedDEK : WrappedDEK
deriving DecidableEq, Repr

/-- The `{ ...token }` copy after `delete payload.sig; delete
payload.sigAlg`. -/
def tokenPayload (token : CapabilityToken) : TokenPayload :=
  { v := token.v
    id := token.id
    iss := token.iss
    sub := token.sub
    iat := token.iat
    exp := token.exp
    scopes := token.scopes
    bucketId := token.bucketId
    resources := token.resources
    cdnUrl := token.cdnUrl
    wrappedDEK := token.wrappedDEK }

/-- Transcribes `verifyTokenSignature`: the verdict together with the
post-state of the token object (the source writes to the copy only, never
to the token). -/
def verifyTokenSignature (verifyDetached : List Nat → List Nat → List Nat →
      Bool)
    (serialize : TokenPayload → List Nat) (b64decode : String → List Nat)
    (token : CapabilityToken) (issuerPublicKey : List Nat) :
    Bool × CapabilityToken :=
  let payload := tokenPayload token
  (verifyDetached (serialize payload) (b64decode token.sig) issuerPublicKey,
    token)

/-- `isTokenExpired` with the post-state of its token argument made
explicit. -/
def isTokenExpiredPost (token : CapabilityToken) (now : Nat) :
    Bool × CapabilityToken :=
  (isTokenExpired token now, token)

/-- C9: validation produces a separate verdict and leaves the token value
unchanged.  The signature check returns the token with every field — in
particular `sig` and `sigAlg` — intact (only the copied payload lacks
them), the expiry check returns the token unchanged, and an SDK
`validateToken` verdict of `valid token` carries exactly the stored token
(the store entry, not an edited copy). -/
theorem validation_produces_verdict_not_edit :
    (∀ (verifyDetached : List Nat → List Nat → List Nat → Bool)
        (serialize : TokenPayload → List Nat)
        (b64decode : String → List Nat) (token : CapabilityToken)
        (issuerPublicKey : List Nat),
      (verifyTokenSignature verifyDetached serialize b64decode token
          issuerPublicKey).2 = token ∧
      (verifyTokenSignature verifyDetached serialize b64decode token
          issuerPublicKey).2.sig = token.sig ∧
      (verifyTokenSignature verifyDetached serialize b64decode token
          issuerPublicKey).2.sigAlg = token.sigAlg) ∧
    (∀ (token : CapabilityToken) (now : Nat),
      (isTokenExpiredPost token now).2 = token) ∧
    (∀ (tokens : TokenStore) (tokenId : String)
        (requiredScope : Option String) (now : Nat) (token : AccessToken),
      validateToken tokens tokenId requiredScope now = .valid token →
      tokensGet tokens tokenId = some token) := by
  refine ⟨fun _ _ _ _ _ => ⟨rfl, rfl, rfl⟩, fun _ _ => rfl, ?_⟩
  intro tokens tokenId requiredScope now token h
  unfold validateToken at h
  cases hget : tokensGet tokens tokenId with
  | none => rw [hget] at h; simp at h
  | some t =>
    rw [hget] at h
    by_cases hrev : t.revoked = true
    · simp [hrev] at h
    · by_cases hexp : t.expiresAt < now
      · simp [hrev, hexp] at h
      · cases requiredScope with
        | none =>
          simp [hrev, hexp] at h
          subst h
          rfl
        | some rs =>
          by_cases hs : (t.scopes.any fun s => matchScope s rs) = true
          · simp [hrev, hexp, hs] at h
            subst h
            rfl
          · simp [hrev, hexp, hs] at h

/-- C9 witness: the boundary access token validated without a scope
argument at time 50 yields a `valid` verdict carrying exactly the stored
token. -/
theorem validation_produces_verdict_not_edit_witness :
    tokensGet [("t1", boundaryAccessToken)] "t1" = some boundaryAccessToken :=
  validation_produces_verdict_not_edit.2.2 [("t1", boundaryAccessToken)]
    "t1" none 50 boundaryAccessToken (by decide)

/-! ## C10 — `executeAgent` revokes its token before returning

`executeAgent(agentMeta, healthData, goals, ollamaEndpoint)` logs the
wallet connection, creates a scoped access token, logs the execution,
POSTs to the local agent API, logs completion, revokes the token, logs
the revocation and — when a wallet with a `signMessage` function is
present — signs the final chain hash (failures of that call are caught
and only skip the `CHAIN_SIGNED` entry).  The external pieces are
parameters: the network call's parsed JSON reply (`result`), the wallet
state, the extension's `signMessage`, the clock reading `now` (used for
every `Date.now()` in the run) and the two random strings of
`createAccessToken`.  The structured `details` objects are modelled by
their serialized forms. -/

structure AgentMeta where
  id : String
  version : String
  apiRoute : String
  requiredData : List String
  optionalData : List String
  accessDuration : Option String
deriving Repr

/-- Digits of `parseInt` on a decimal digit list. -/
def digitsToNat (cs : List Char) : Nat :=
  cs.foldl (fun acc c => acc * 10 + (c.toNat - 48)) 0

/-- Transcribes `parseDuration(str)` (lines 324-331): on a match of
`^(\d+)(h|m|s)$` the number times the unit's multiplier, otherwise the
default 3600000 ms. -/
def parseDuration (s : Option String) : Nat :=
  match s with
  | none => 3600000
  | some str =>
    match str.data.getLast? with
    | none => 3600000
    | some u =>
      let digits := str.data.dropLast
      if digits ≠ [] ∧ digits.all Char.isDigit ∧
          (u = 'h' ∨ u = 'm' ∨ u = 's') then
        digitsToNat digits *
          (if u = 'h' then 3600000 else if u = 'm' then 60000 else 1000)
      else 3600000

/-- JavaScript `str.slice(0, n)` for non-negative `n`. -/
def strTake (s : String) (n : Nat) : String :=
  String.mk (s.data.take n)

/-- The fields of the agent API's parsed JSON reply that `executeAgent`
reads (`result.processingTime` and the insight/score projections used in
the `ANALYSIS_COMPLETE` entry). -/
structure AgentRunResult where
  processingTime : Nat
  insightCount : Nat
deriving Repr

/-- Transcribes `executeAgent` (lines 216-310).  Returns the post-states
of `this.auditChain` and `this.tokens` together with the created token's
id (part of the returned `audit` object). -/
def executeAgent (hashFn : AuditPre → String) (auditChain : List AuditEntry)
    (tokens : TokenStore) (wallet : Option String) (meta : AgentMeta)
    (healthData : List (String × Nat)) (tokenId agentKey : String)
    (now : Nat) (result : AgentRunResult)
    (signMessage : Option (String → String)) :
    (List AuditEntry × TokenStore) × String :=
  let chain1 := addAuditEntry hashFn auditChain now "WALLET_CONNECTED"
    ("walletAddress=" ++ wallet.getD "local" ++ ";extensionConnected=" ++
      toString wallet.isSome)
  let scopes := (meta.requiredData.map fun d => "health/" ++ d ++ "/*") ++
    (meta.optionalData.map fun d => "health/" ++ d ++ "/*")
  let durationMs := parseDuration meta.accessDuration
  let created := createAccessToken tokens tokenId agentKey meta.id scopes
    durationMs now
  let tokens1 := created.1
  let token := created.2
  let chain2 := addAuditEntry hashFn chain1 now "TOKEN_CREATED"
    ("tokenId=" ++ token.tokenId ++ ";agentId=" ++ meta.id ++ ";scopes=" ++
      String.intercalate "," token.scopes ++ ";expiresAt=" ++
      toString token.expiresAt ++ ";agentKey=" ++ token.agentKey)
  let totalRecords := (healthData.map Prod.snd).sum
  let chain3 := addAuditEntry hashFn chain2 now "AGENT_EXECUTED"
    ("tokenId=" ++ token.tokenId ++ ";agentId=" ++ meta.id ++
      ";agentVersion=" ++ meta.version ++ ";recordsAnalyzed=" ++
      toString totalRecords ++ ";processingLocation=local;model=ollama/llama3.2")
  let chain4 := addAuditEntry hashFn chain3 now "ANALYSIS_COMPLETE"
    ("tokenId=" ++ token.tokenId ++ ";agentId=" ++ meta.id ++
      ";processingTime=" ++ toString result.processingTime ++
      ";insightCount=" ++ toString result.insightCount)
  let tokens2 := revokeToken tokens1 token.tokenId
  let chain5 := addAuditEntry hashFn chain4 now "TOKEN_REVOKED"
    ("tokenId=" ++ token.tokenId ++ ";reason=analysis_complete")
  let chain6 :=
    match wallet, signMessage with
    | some addr, some sign =>
      addAuditEntry hashFn chain5 now "CHAIN_SIGNED"
        ("signature=" ++ strTake (sign (tailHashFrom genesisHash chain5)) 20
          ++ "...;signer=" ++ addr)
    | _, _ => chain5
  ((chain6, tokens2), token.tokenId)

theorem tokensGet_tokensSet_self :
    ∀ (tokens : TokenStore) (tokenId : String) (token : AccessToken),
      tokensGet (tokensSet tokens tokenId token) tokenId = some token
  | [], tokenId, token => by simp [tokensSet, tokensGet, List.find?]
  | (k, v) :: rest, tokenId, token => by
    by_cases h : k == tokenId
    · simp [tokensSet, h, tokensGet, List.find?]
    · rw [tokensSet, if_neg h]
      have ih := tokensGet_tokensSet_self rest tokenId token
      simpa [tokensGet, List.find?, h] using ih

theorem revokeToken_tokensSet (tokens : TokenStore) (tokenId : String)
    (token : AccessToken) :
    tokensGet (revokeToken (tokensSet tokens tokenId token) tokenId)
        tokenId = some { token with revoked := true } := by
  rw [revokeToken, tokensGet_tokensSet_self, tokensGet_tokensSet_self]

theorem validateToken_of_revoked (tokens : TokenStore) (tokenId : String)
    (requiredScope : Option String) (now : Nat) (token : AccessToken)
    (hget : tokensGet tokens tokenId = some token)
    (hrev : token.revoked = true) :
    validateToken tokens tokenId requiredScope now =
      .invalid "Token revoked" := by
  simp [validateToken, hget, hrev]

/-- C10: after any normally-completing `executeAgent` run, validating the
token it created — under any scope requirement and at any later (or
earlier) clock reading, in particular before the token's expiry —
returns invalid with reason `Token revoked`. -/
theorem executeAgent_revokes_created_token (hashFn : AuditPre → String)
    (auditChain : List AuditEntry) (tokens : TokenStore)
    (wallet : Option String) (meta : AgentMeta)
    (healthData : List (String × Nat)) (tokenId agentKey : String)
    (now : Nat) (result : AgentRunResult)
    (signMessage : Option (String → String)) (requiredScope : Option String)
    (checkNow : Nat) :
    validateToken
        (executeAgent hashFn auditChain tokens wallet meta healthData
          tokenId agentKey now result signMessage).1.2
        (executeAgent hashFn auditChain tokens wallet meta healthData
          tokenId agentKey now result signMessage).2
        requiredScope checkNow =
      .invalid "Token revoked" := by
  apply validateToken_of_revoked _ _ _ _
    ({ (createAccessToken tokens tokenId agentKey meta.id
        ((meta.requiredData.map fun d => "health/" ++ d ++ "/*") ++
          (meta.optionalData.map fun d => "health/" ++ d ++ "/*"))
        (parseDuration meta.accessDuration) now).2 with revoked := true })
  · show tokensGet (executeAgent hashFn auditChain tokens wallet meta
      healthData tokenId agentKey now result signMessage).1.2 _ = _
    simp only [executeAgent, createAccessToken]
    exact revokeToken_tokensSet tokens tokenId _
  · rfl

end Proofi
